import Mathlib

/-!
Shallow embedding of the crate infallible_to_big_int
(src/infallible_tobigint.rs and src/infallible_tobiguint.rs).

The crate defines two traits, InfallibleToBigInt and InfallibleToBigUint,
each implemented by delegating to the fallible conversion of the external
num library and immediately unwrapping the result with expect.

Embedding choices:
  - BigInt is embedded as Int, BigUint as Nat;
  - a machine-integer value is an Int constrained by the representability
    predicate of its type (min and max bounds); the platform pointer width
    w is an explicit parameter so that isize and usize stay width-generic;
  - a Rust abort via expect is embedded as Except.error carrying the
    diagnostic message, so the wrapper returns Except String instead of
    aborting.
-/

/-- The Rust primitive numeric types discussed by the crate documentation:
the twelve machine integer types plus the two floating point types that
the documentation explicitly excludes. -/
inductive PrimTy where
  | i8 | i16 | i32 | i64 | i128 | isize
  | u8 | u16 | u32 | u64 | u128 | usize
  | f32 | f64
deriving DecidableEq, Fintype

/-- Whether a primitive type is a machine integer type. -/
def PrimTy.isInt : PrimTy → Bool
  | .f32 | .f64 => false
  | _ => true

/-- Whether a primitive type is a signed machine integer type. -/
def PrimTy.isSignedInt : PrimTy → Bool
  | .i8 | .i16 | .i32 | .i64 | .i128 | .isize => true
  | _ => false

/-- Whether a primitive type is an unsigned machine integer type. -/
def PrimTy.isUnsignedInt : PrimTy → Bool
  | .u8 | .u16 | .u32 | .u64 | .u128 | .usize => true
  | _ => false

/-- The list of types for which src/infallible_tobigint.rs provides an
impl of InfallibleToBigInt, in source order (lines 29 to 111). -/
def infallibleToBigIntImpls : List PrimTy :=
  [.i8, .i16, .i32, .i64, .i128, .isize, .u8, .u16, .u32, .u64, .u128, .usize]

/-- The list of types for which src/infallible_tobiguint.rs provides an
impl of InfallibleToBigUint, in source order (lines 29 to 69). -/
def infallibleToBigUintImpls : List PrimTy :=
  [.u8, .u16, .u32, .u64, .u128, .usize]

/-- The twelve machine integer types implementing InfallibleToBigInt. -/
inductive Ty where
  | i8 | i16 | i32 | i64 | i128 | isize
  | u8 | u16 | u32 | u64 | u128 | usize
deriving DecidableEq, Fintype

/-- The six unsigned machine integer types implementing InfallibleToBigUint. -/
inductive UTy where
  | u8 | u16 | u32 | u64 | u128 | usize
deriving DecidableEq, Fintype

/-- Injection of the InfallibleToBigInt implementors into the primitive types. -/
def Ty.toPrim : Ty → PrimTy
  | .i8 => .i8 | .i16 => .i16 | .i32 => .i32 | .i64 => .i64
  | .i128 => .i128 | .isize => .isize
  | .u8 => .u8 | .u16 => .u16 | .u32 => .u32 | .u64 => .u64
  | .u128 => .u128 | .usize => .usize

/-- Every InfallibleToBigUint implementor also implements InfallibleToBigInt. -/
def UTy.toTy : UTy → Ty
  | .u8 => .u8 | .u16 => .u16 | .u32 => .u32 | .u64 => .u64
  | .u128 => .u128 | .usize => .usize

/-- Rust name of the type, as it appears in the expect messages. -/
def Ty.name : Ty → String
  | .i8 => "i8" | .i16 => "i16" | .i32 => "i32" | .i64 => "i64"
  | .i128 => "i128" | .isize => "isize"
  | .u8 => "u8" | .u16 => "u16" | .u32 => "u32" | .u64 => "u64"
  | .u128 => "u128" | .usize => "usize"

/-- Rust name of the unsigned type, as it appears in the expect messages. -/
def UTy.name : UTy → String
  | .u8 => "u8" | .u16 => "u16" | .u32 => "u32" | .u64 => "u64"
  | .u128 => "u128" | .usize => "usize"

/-- Bit width of the type; w is the platform pointer width
(the width of isize and usize). -/
def Ty.bits (w : Nat) : Ty → Nat
  | .i8 => 8 | .i16 => 16 | .i32 => 32 | .i64 => 64 | .i128 => 128
  | .isize => w
  | .u8 => 8 | .u16 => 16 | .u32 => 32 | .u64 => 64 | .u128 => 128
  | .usize => w

/-- Whether the type is signed. -/
def Ty.signed : Ty → Bool
  | .i8 | .i16 | .i32 | .i64 | .i128 | .isize => true
  | _ => false

/-- Smallest representable value of the type (MIN in Rust). -/
def Ty.minVal (w : Nat) (t : Ty) : Int :=
  if t.signed then -(2 ^ (t.bits w - 1)) else 0

/-- Largest representable value of the type (MAX in Rust). -/
def Ty.maxVal (w : Nat) (t : Ty) : Int :=
  if t.signed then 2 ^ (t.bits w - 1) - 1 else 2 ^ t.bits w - 1

/-- A value of the machine type, embedded as an Int within bounds. -/
def Ty.representable (w : Nat) (t : Ty) (v : Int) : Prop :=
  t.minVal w ≤ v ∧ v ≤ t.maxVal w

instance (w : Nat) (t : Ty) (v : Int) : Decidable (Ty.representable w t v) :=
  inferInstanceAs (Decidable (_ ∧ _))

/-- Modelled from the spec: the fallible conversion of the external
arbitrary-precision library from a machine integer to a big signed integer
(spec section 6). Per spec section 4.1 it is mathematically guaranteed to
succeed for every value of every enumerated type, returning the same
numeric value; BigInt is embedded as Int. -/
def numToBigInt (v : Int) : Option Int :=
  some v

/-- Modelled from the spec: the fallible conversion of the external
arbitrary-precision library from a machine integer to a big unsigned
integer (spec section 6). It succeeds exactly on non-negative inputs
(spec section 4.2: for the enumerated unsigned types no sign check is
ever needed, so it always succeeds there); BigUint is embedded as Nat. -/
def numToBigUint (v : Int) : Option Nat :=
  if v < 0 then none else some v.toNat

/-- The body shape shared by every impl in the crate: invoke the underlying
fallible conversion and expect the result, turning a None into an abort
carrying the given diagnostic message. The abort is embedded as
Except.error. -/
def wrapInfallible {α β : Type} (underlying : α → Option β) (msg : String)
    (v : α) : Except String β :=
  match underlying v with
  | some z => Except.ok z
  | none => Except.error msg

/-- The expect message of each InfallibleToBigInt impl, transcribed
literally from src/infallible_tobigint.rs. -/
def bigintErrMsg : Ty → String
  | .i8 =>
    "to_bigint failed for i8, this should not happen and is most likely a programming error"
  | .i16 =>
    "to_bigint failed for i16, this should not happen and is most likely a programming error"
  | .i32 =>
    "to_bigint failed for i32, this should not happen and is most likely a programming error"
  | .i64 =>
    "to_bigint failed for i64, this should not happen and is most likely a programming error"
  | .i128 =>
    "to_bigint failed for i128, this should not happen and is most likely a programming error"
  | .isize =>
    "to_bigint failed for isize, this should not happen and is most likely a programming error"
  | .u8 =>
    "to_bigint failed for u8, this should not happen and is most likely a programming error"
  | .u16 =>
    "to_bigint failed for u16, this should not happen and is most likely a programming error"
  | .u32 =>
    "to_bigint failed for u32, this should not happen and is most likely a programming error"
  | .u64 =>
    "to_bigint failed for u64, this should not happen and is most likely a programming error"
  | .u128 =>
    "to_bigint failed for u128, this should not happen and is most likely a programming error"
  | .usize =>
    "to_bigint failed for usize, this should not happen and is most likely a programming error"

/-- The expect message of each InfallibleToBigUint impl, transcribed
literally from src/infallible_tobiguint.rs. -/
def biguintErrMsg : UTy → String
  | .u8 =>
    "to_biguint failed for u8, this should not happen and is most likely a programming error"
  | .u16 =>
    "to_biguint failed for u16, this should not happen and is most likely a programming error"
  | .u32 =>
    "to_biguint failed for u32, this should not happen and is most likely a programming error"
  | .u64 =>
    "to_biguint failed for u64, this should not happen and is most likely a programming error"
  | .u128 =>
    "to_biguint failed for u128, this should not happen and is most likely a programming error"
  | .usize =>
    "to_biguint failed for usize, this should not happen and is most likely a programming error"

/-- InfallibleToBigInt::to_bigint for the type t: each impl in
src/infallible_tobigint.rs lines 29 to 111 is
ToBigInt::to_bigint(self).expect(message naming t). -/
def to_bigint (t : Ty) (v : Int) : Except String Int :=
  wrapInfallible numToBigInt (bigintErrMsg t) v

/-- InfallibleToBigUint::to_biguint for the type t: each impl in
src/infallible_tobiguint.rs lines 29 to 69 is
ToBigUint::to_biguint(self).expect(message naming t). -/
def to_biguint (t : UTy) (v : Int) : Except String Nat :=
  wrapInfallible numToBigUint (biguintErrMsg t) v

/-! Helper lemmas shared by the claim theorems. -/

theorem UTy_toTy_signed (u : UTy) : (UTy.toTy u).signed = false := by
  cases u <;> rfl

theorem repr_unsigned_nonneg (w : Nat) (u : UTy) (v : Int)
    (hv : Ty.representable w u.toTy v) : 0 ≤ v := by
  have h1 := hv.1
  simp only [Ty.minVal, UTy_toTy_signed] at h1
  simpa using h1

theorem numToBigUint_of_nonneg (v : Int) (h : 0 ≤ v) :
    numToBigUint v = some v.toNat := by
  unfold numToBigUint
  rw [if_neg (not_lt.mpr h)]

theorem to_bigint_eq_ok (t : Ty) (v : Int) : to_bigint t v = Except.ok v := rfl

theorem to_biguint_eq_ok (t : UTy) (v : Int) (h : 0 ≤ v) :
    to_biguint t v = Except.ok v.toNat := by
  unfold to_biguint wrapInfallible
  rw [numToBigUint_of_nonneg v h]

/-- Claim C1: for every type implementing InfallibleToBigInt or
InfallibleToBigUint and every representable value v, the conversion
returns an arbitrary-precision integer whose numeric value equals v
exactly, with no precision loss, sign change or wraparound. -/
theorem claim_C1_exact_value (w : Nat) (t : Ty) (u : UTy) (v v2 : Int)
    (hv : Ty.representable w t v) (hv2 : Ty.representable w u.toTy v2) :
    to_bigint t v = Except.ok v ∧
    ∃ n : Nat, to_biguint u v2 = Except.ok n ∧ (n : Int) = v2 := by
  have h0 := repr_unsigned_nonneg w u v2 hv2
  exact ⟨to_bigint_eq_ok t v,
    v2.toNat, to_biguint_eq_ok u v2 h0, Int.toNat_of_nonneg h0⟩

/-- Witness for claim C1 at width 64, the i8 value -5 and the u8 value 200. -/
theorem claim_C1_exact_value_witness :
    (Ty.representable 64 Ty.i8 (-5) ∧
      Ty.representable 64 (UTy.toTy UTy.u8) 200) ∧
    (to_bigint Ty.i8 (-5) = Except.ok (-5) ∧
      ∃ n : Nat, to_biguint UTy.u8 200 = Except.ok n ∧ (n : Int) = 200) :=
  ⟨⟨by decide, by decide⟩,
    claim_C1_exact_value 64 Ty.i8 UTy.u8 (-5) 200 (by decide) (by decide)⟩

/-- Claim C2: for every representable value of every implementing type,
the conversion never signals an error: the underlying fallible conversion
always returns a success value, so the expect failure branch is
unreachable and the wrapper always returns a success result. -/
theorem claim_C2_never_fails (w : Nat) (t : Ty) (u : UTy) (v v2 : Int)
    (hv : Ty.representable w t v) (hv2 : Ty.representable w u.toTy v2) :
    (∃ z : Int, numToBigInt v = some z) ∧
    (∃ n : Nat, numToBigUint v2 = some n) ∧
    (∃ z : Int, to_bigint t v = Except.ok z) ∧
    (∃ n : Nat, to_biguint u v2 = Except.ok n) := by
  have h0 := repr_unsigned_nonneg w u v2 hv2
  exact ⟨⟨v, rfl⟩, ⟨v2.toNat, numToBigUint_of_nonneg v2 h0⟩,
    ⟨v, to_bigint_eq_ok t v⟩, ⟨v2.toNat, to_biguint_eq_ok u v2 h0⟩⟩

/-- Witness for claim C2 at width 64, the i64 value -1 and the usize value 7. -/
theorem claim_C2_never_fails_witness :
    (Ty.representable 64 Ty.i64 (-1) ∧
      Ty.representable 64 (UTy.toTy UTy.usize) 7) ∧
    ((∃ z : Int, numToBigInt (-1) = some z) ∧
      (∃ n : Nat, numToBigUint 7 = some n) ∧
      (∃ z : Int, to_bigint Ty.i64 (-1) = Except.ok z) ∧
      (∃ n : Nat, to_biguint UTy.usize 7 = Except.ok n)) :=
  ⟨⟨by decide, by decide⟩,
    claim_C2_never_fails 64 Ty.i64 UTy.usize (-1) 7 (by decide) (by decide)⟩

/-- Claim C3: the infallible wrapper is a pure pass-through of the
underlying fallible conversion on its success path: whenever the
underlying conversion succeeds with some result, the wrapper returns
exactly that result. -/
theorem claim_C3_passthrough (t : Ty) (u : UTy) (v v2 : Int) (z : Int)
    (n : Nat) (hz : numToBigInt v = some z) (hn : numToBigUint v2 = some n) :
    to_bigint t v = Except.ok z ∧ to_biguint u v2 = Except.ok n := by
  constructor
  · unfold to_bigint wrapInfallible
    rw [hz]
  · unfold to_biguint wrapInfallible
    rw [hn]

/-- Witness for claim C3 at the boundary values i32 MIN and u8 MAX. -/
theorem claim_C3_passthrough_witness :
    (numToBigInt (-2147483648) = some (-2147483648) ∧
      numToBigUint 255 = some 255) ∧
    (to_bigint Ty.i32 (-2147483648) = Except.ok (-2147483648) ∧
      to_biguint UTy.u8 255 = Except.ok 255) :=
  ⟨⟨rfl, by decide⟩,
    claim_C3_passthrough Ty.i32 UTy.u8 (-2147483648) 255 (-2147483648) 255
      rfl (by decide)⟩

/-- Claim C4 counterexample: the claim that InfallibleToBigInt is
implemented only for the signed integer types is false: u8 is among the
implementing types, u8 is not a signed type, and the implementing list is
not the list of the six signed types. -/
theorem claim_C4_counterexample :
    PrimTy.u8 ∈ infallibleToBigIntImpls ∧
    PrimTy.isSignedInt PrimTy.u8 = false ∧
    infallibleToBigIntImpls ≠ [.i8, .i16, .i32, .i64, .i128, .isize] := by
  decide

/-- Claim C4 amended: the InfallibleToBigInt capability set is closed and
consists of exactly the twelve machine integer types, the six signed ones
(i8, i16, i32, i64, i128, isize) together with the six unsigned ones
(u8, u16, u32, u64, u128, usize), and of no other primitive numeric type
(in particular of no floating-point type). -/
theorem claim_C4_amended_closed_set :
    infallibleToBigIntImpls.Nodup ∧
    infallibleToBigIntImpls.length = 12 ∧
    ∀ t : PrimTy, t ∈ infallibleToBigIntImpls ↔ t.isInt = true := by
  decide

/-- Claim C5: the InfallibleToBigUint capability set is closed and
consists of exactly the six unsigned machine integer types u8, u16, u32,
u64, u128 and usize, and of no other primitive numeric type (in
particular of no signed or floating-point type). -/
theorem claim_C5_biguint_closed_set :
    infallibleToBigUintImpls.Nodup ∧
    infallibleToBigUintImpls.length = 6 ∧
    ∀ t : PrimTy, t ∈ infallibleToBigUintImpls ↔ t.isUnsignedInt = true := by
  decide

/-- Claim C6: if the underlying fallible conversion returns None, the
wrapping operation aborts (embedded as Except.error) with the diagnostic
message of the source type, which is exactly the string naming that type,
rather than returning a recoverable value; this holds for both traits. -/
theorem claim_C6_abort_policy (t : Ty) (u : UTy) (f : Int → Option Int)
    (g : Int → Option Nat) (v v2 : Int) (hf : f v = none) (hg : g v2 = none) :
    wrapInfallible f (bigintErrMsg t) v = Except.error (bigintErrMsg t) ∧
    wrapInfallible g (biguintErrMsg u) v2 = Except.error (biguintErrMsg u) ∧
    bigintErrMsg t = "to_bigint failed for " ++ t.name ++
      ", this should not happen and is most likely a programming error" ∧
    biguintErrMsg u = "to_biguint failed for " ++ u.name ++
      ", this should not happen and is most likely a programming error" := by
  refine ⟨?_, ?_, ?_, ?_⟩
  · unfold wrapInfallible
    rw [hf]
  · unfold wrapInfallible
    rw [hg]
  · cases t <;> rfl
  · cases u <;> rfl

/-- Witness for claim C6: a hypothetical underlying conversion that fails
at 0, wrapped with the i8 and u8 messages. -/
theorem claim_C6_abort_policy_witness :
    ((fun _ : Int => (none : Option Int)) 0 = none ∧
      (fun _ : Int => (none : Option Nat)) 0 = none) ∧
    (wrapInfallible (fun _ : Int => (none : Option Int)) (bigintErrMsg Ty.i8) 0
        = Except.error (bigintErrMsg Ty.i8) ∧
      wrapInfallible (fun _ : Int => (none : Option Nat)) (biguintErrMsg UTy.u8) 0
        = Except.error (biguintErrMsg UTy.u8) ∧
      bigintErrMsg Ty.i8 = "to_bigint failed for " ++ Ty.name Ty.i8 ++
        ", this should not happen and is most likely a programming error" ∧
      biguintErrMsg UTy.u8 = "to_biguint failed for " ++ UTy.name UTy.u8 ++
        ", this should not happen and is most likely a programming error") :=
  ⟨⟨rfl, rfl⟩,
    claim_C6_abort_policy Ty.i8 UTy.u8 (fun _ => none) (fun _ => none) 0 0
      rfl rfl⟩

/-- Claim C7: both conversions are deterministic pure functions: equal
inputs yield equal outputs for to_bigint and to_biguint alike. -/
theorem claim_C7_deterministic (t : Ty) (u : UTy) (v1 v2 v3 v4 : Int)
    (h : v1 = v2) (h2 : v3 = v4) :
    to_bigint t v1 = to_bigint t v2 ∧ to_biguint u v3 = to_biguint u v4 := by
  subst h
  subst h2
  exact ⟨rfl, rfl⟩

/-- Witness for claim C7 at the i16 value 12 and the u32 value 34. -/
theorem claim_C7_deterministic_witness :
    ((12 : Int) = 12 ∧ (34 : Int) = 34) ∧
    (to_bigint Ty.i16 12 = to_bigint Ty.i16 12 ∧
      to_biguint UTy.u32 34 = to_biguint UTy.u32 34) :=
  ⟨⟨rfl, rfl⟩, claim_C7_deterministic Ty.i16 UTy.u32 12 12 34 34 rfl rfl⟩

/-- Claim C8: the concrete scenarios: u8 value 0 converts to BigUint 0,
u8 value 255 converts to BigUint 255, i32 MIN converts to the equal
BigInt, i128 MAX converts to the equal BigInt with no truncation, and
usize MAX converts to the equal BigUint for every platform width w. -/
theorem claim_C8_scenarios (w : Nat) :
    to_biguint UTy.u8 0 = Except.ok 0 ∧
    to_biguint UTy.u8 255 = Except.ok 255 ∧
    (Ty.minVal w Ty.i32 = -2147483648 ∧
      to_bigint Ty.i32 (Ty.minVal w Ty.i32) = Except.ok (-2147483648)) ∧
    (Ty.maxVal w Ty.i128 = 170141183460469231731687303715884105727 ∧
      to_bigint Ty.i128 (Ty.maxVal w Ty.i128)
        = Except.ok 170141183460469231731687303715884105727) ∧
    (∃ n : Nat,
      to_biguint UTy.usize (Ty.maxVal w (UTy.toTy UTy.usize)) = Except.ok n ∧
      (n : Int) = Ty.maxVal w (UTy.toTy UTy.usize)) := by
  have hi32 : Ty.minVal w Ty.i32 = -2147483648 := by
    norm_num [Ty.minVal, Ty.signed, Ty.bits]
  have hi128 : Ty.maxVal w Ty.i128 = 170141183460469231731687303715884105727 := by
    norm_num [Ty.maxVal, Ty.signed, Ty.bits]
  have husize : Ty.maxVal w (UTy.toTy UTy.usize) = 2 ^ w - 1 := by
    simp [UTy.toTy, Ty.maxVal, Ty.signed, Ty.bits]
  have hp : (0 : Int) < 2 ^ w := pow_pos (by norm_num) w
  have h0 : 0 ≤ Ty.maxVal w (UTy.toTy UTy.usize) := by
    rw [husize]
    omega
  refine ⟨rfl, rfl, ⟨hi32, ?_⟩, ⟨hi128, ?_⟩,
    (Ty.maxVal w (UTy.toTy UTy.usize)).toNat,
    to_biguint_eq_ok UTy.usize _ h0, Int.toNat_of_nonneg h0⟩
  · rw [hi32]
    exact to_bigint_eq_ok Ty.i32 _
  · rw [hi128]
    exact to_bigint_eq_ok Ty.i128 _

/-- Claim C9: InfallibleToBigInt is also implemented for all six unsigned
types, twelve implementations in total, and for every representable value
of an unsigned type the conversion to BigInt returns exactly that value,
which is non-negative. -/
theorem claim_C9_bigint_for_unsigned (w : Nat) (u : UTy) (v : Int)
    (hv : Ty.representable w u.toTy v) :
    infallibleToBigIntImpls.length = 12 ∧
    Ty.toPrim (UTy.toTy u) ∈ infallibleToBigIntImpls ∧
    to_bigint u.toTy v = Except.ok v ∧ 0 ≤ v := by
  refine ⟨rfl, ?_, to_bigint_eq_ok _ v, repr_unsigned_nonneg w u v hv⟩
  cases u <;> decide

/-- Witness for claim C9 at width 64 and the u32 value 42. -/
theorem claim_C9_bigint_for_unsigned_witness :
    Ty.representable 64 (UTy.toTy UTy.u32) 42 ∧
    (infallibleToBigIntImpls.length = 12 ∧
      Ty.toPrim (UTy.toTy UTy.u32) ∈ infallibleToBigIntImpls ∧
      to_bigint (UTy.toTy UTy.u32) 42 = Except.ok 42 ∧ (0 : Int) ≤ 42) :=
  ⟨by decide, claim_C9_bigint_for_unsigned 64 UTy.u32 42 (by decide)⟩

/-- Claim C10: the two traits agree on their overlap: for every unsigned
type and every representable value, to_bigint and to_biguint return
results of equal numeric value. -/
theorem claim_C10_traits_agree (w : Nat) (u : UTy) (v : Int)
    (hv : Ty.representable w u.toTy v) :
    ∃ (z : Int) (n : Nat), to_bigint u.toTy v = Except.ok z ∧
      to_biguint u v = Except.ok n ∧ (n : Int) = z := by
  have h0 := repr_unsigned_nonneg w u v hv
  exact ⟨v, v.toNat, to_bigint_eq_ok _ v, to_biguint_eq_ok u v h0,
    Int.toNat_of_nonneg h0⟩

/-- Witness for claim C10 at width 64 and the u16 value 65535. -/
theorem claim_C10_traits_agree_witness :
    Ty.representable 64 (UTy.toTy UTy.u16) 65535 ∧
    (∃ (z : Int) (n : Nat),
      to_bigint (UTy.toTy UTy.u16) 65535 = Except.ok z ∧
      to_biguint UTy.u16 65535 = Except.ok n ∧ (n : Int) = z) :=
  ⟨by decide, claim_C10_traits_agree 64 UTy.u16 65535 (by decide)⟩
